import Mathlib

/-!
Shallow embedding of the iceLensDaq HAL core (src/hal/modbus_bus.py,
src/hal/drivers.py, src/hal/hal.py).

Conventions of the embedding:
* Python `float` arithmetic is modelled over `ℚ` (exact real-number
  semantics of the written formulas).
* A Python exception that escapes a function is modelled as
  `Except.error ()`; a normal return is `Except.ok`.
* `None` is `Option.none`; Python dicts that the claims touch are
  modelled as association lists with an in-place-or-append update
  (`setIn`) and ordered lookup (`getTag`), mirroring dict semantics.
* The external pymodbus client is an abstract `Client`: for each
  (unit, address, count) request it either raises (`ReadResp.exn`),
  returns a response object with no `registers` attribute
  (`ReadResp.noRegs`, covering protocol-level error responses), or
  returns a register list (`ReadResp.regs`); writes analogously.
-/

namespace IceLens

/-- Response behaviour of `client.read_input_registers` /
`client.read_holding_registers` for one concrete request. -/
inductive ReadResp where
  | exn : ReadResp
  | noRegs : ReadResp
  | regs : List Int → ReadResp
deriving Repr, DecidableEq

/-- Response behaviour of `client.write_register` for one concrete
request: raise, an error response (`isError()` true or absent), or a
success response (`isError()` false). -/
inductive WriteResp where
  | exn : WriteResp
  | errResp : WriteResp
  | okResp : WriteResp
deriving Repr, DecidableEq

/-- Abstract pymodbus serial client: behaviour of each register
transaction, indexed by (unit, address, count) resp. (unit, address,
value). -/
structure Client where
  readInput : Int → Int → Int → ReadResp
  writeReg : Int → Int → Int → WriteResp

/-- ModbusBus (src/hal/modbus_bus.py): connection flag `ok` plus the
underlying client. -/
structure ModbusBus where
  ok : Bool
  client : Client

/-- ModbusBus.read_input (modbus_bus.py lines 157-172): `None` when the
bus is not connected; otherwise one client call whose exception
propagates; `getattr(rr, "registers", None)` yields `None` when the
response has no register list. -/
def ModbusBus.read_input (b : ModbusBus) (unit address count : Int) :
    Except Unit (Option (List Int)) :=
  if b.ok = false then Except.ok none
  else
    match b.client.readInput unit address count with
    | ReadResp.exn => Except.error ()
    | ReadResp.noRegs => Except.ok none
    | ReadResp.regs vs => Except.ok (some vs)

/-- ModbusBus.write_holding (modbus_bus.py lines 191-206): `False` when
not connected; otherwise one client call whose exception propagates;
`getattr(rq, "isError", lambda: True)() is False` is `True` exactly for
a non-error response. -/
def ModbusBus.write_holding (b : ModbusBus) (unit address value : Int) :
    Except Unit Bool :=
  if b.ok = false then Except.ok false
  else
    match b.client.writeReg unit address value with
    | WriteResp.exn => Except.error ()
    | WriteResp.errResp => Except.ok false
    | WriteResp.okResp => Except.ok true

/-- reg3x_to_offset (drivers.py line 7): `max(0, addr_3x - 30001)`. -/
def reg3x_to_offset (addr_3x : Int) : Int := max 0 (addr_3x - 30001)

/-- reg4x_to_offset (drivers.py line 22): `max(0, addr_4x - 40001)`. -/
def reg4x_to_offset (addr_4x : Int) : Int := max 0 (addr_4x - 40001)

/-- BaseDev (drivers.py lines 38-50): device name, its bus and its unit
address. -/
structure BaseDev where
  name : String
  bus : ModbusBus
  unit : Int

/-- Python `round` on the exact value: round half to even. -/
def pyRound (q : ℚ) : Int :=
  let f := ⌊q⌋
  let frac := q - (f : ℚ)
  if frac < 1 / 2 then f
  else if 1 / 2 < frac then f + 1
  else if f % 2 = 0 then f else f + 1

/-- Python `str.upper()` (ASCII configuration strings): uppercase every
character. -/
def pyUpper (s : String) : String := String.mk (s.data.map Char.toUpper)

/-- Python `str.lower()` (ASCII configuration strings): lowercase every
character. -/
def pyLower (s : String) : String := String.mk (s.data.map Char.toLower)

/-- Helper shared by the read drivers: `return None if regs is None
else regs[0]` (`regs[0]` on an empty list raises IndexError). -/
def regsFirst (r : Except Unit (Option (List Int))) : Except Unit (Option Int) :=
  match r with
  | Except.error e => Except.error e
  | Except.ok none => Except.ok none
  | Except.ok (some []) => Except.error ()
  | Except.ok (some (v :: _)) => Except.ok (some v)

namespace AI

/-- AI.CH0_3X (drivers.py line 67). -/
def CH0_3X : Int := 30257

/-- AI.read_channel (drivers.py lines 69-81): offset = reg3x_to_offset(30257) + ch,
one-register bus read, first register or None. -/
def read_channel (d : BaseDev) (ch : Int) : Except Unit (Option Int) :=
  regsFirst (d.bus.read_input d.unit (reg3x_to_offset CH0_3X + ch) 1)

end AI

namespace TDA

/-- TDA.read_channel (drivers.py lines 95-107): offset = max(0, ch - 1),
one-register bus read, first register or None. -/
def read_channel (d : BaseDev) (ch : Int) : Except Unit (Option Int) :=
  regsFirst (d.bus.read_input d.unit (max 0 (ch - 1)) 1)

end TDA

namespace AO

/-- AO.CH1_4X (drivers.py line 126). -/
def CH1_4X : Int := 0x000A

/-- AO.write_voltage_fixed3 (drivers.py lines 128-143): clamp volts to
[0,10], raw = round(volts*reg_scale), register CH1_4X + (ch-1). -/
def write_voltage_fixed3 (d : BaseDev) (ch : Int) (volts : ℚ) (reg_scale : Int) :
    Except Unit Bool :=
  let v := max 0 (min 10 volts)
  let raw := pyRound (v * (reg_scale : ℚ))
  let off := CH1_4X + (ch - 1)
  d.bus.write_holding d.unit off raw

/-- AO.write_percent_to_0_10v (drivers.py lines 145-158): clamp percent
to [0,100], delegate pct*0.10 volts. -/
def write_percent_to_0_10v (d : BaseDev) (ch : Int) (percent : ℚ) (reg_scale : Int) :
    Except Unit Bool :=
  let pct := max 0 (min 100 percent)
  write_voltage_fixed3 d ch (pct * (10 / 100)) reg_scale

end AO

namespace PPS

/-- PPS.CMD_4X (drivers.py line 173). -/
def CMD_4X : Int := 0x0001

/-- PPS.write_percent (drivers.py lines 175-187): clamp to [0,100],
round to integer, write to CMD_4X. -/
def write_percent (d : BaseDev) (percent : ℚ) : Except Unit Bool :=
  let pct := max 0 (min 100 percent)
  d.bus.write_holding d.unit CMD_4X (pyRound pct)

end PPS

namespace Pump

/-- Pump.CMD_4X (drivers.py line 201). -/
def CMD_4X : Int := 0x0001

/-- Pump.write_percent (drivers.py lines 203-215): clamp to [0,100],
round to integer, write to CMD_4X. -/
def write_percent (d : BaseDev) (percent : ℚ) : Except Unit Bool :=
  let pct := max 0 (min 100 percent)
  d.bus.write_holding d.unit CMD_4X (pyRound pct)

end Pump

/-- Device variants produced by make_device (drivers.py lines 218-241). -/
inductive Dev where
  | ai : BaseDev → Dev
  | tda : BaseDev → Dev
  | ao : BaseDev → Dev
  | pps : BaseDev → Dev
  | pump : BaseDev → Dev

/-- TagValue (hal.py lines 11-23): value (or None), timestamp, quality
string ("Good"/"Bad"/"Unknown"). -/
structure TagValue where
  value : Option ℚ
  ts : ℚ
  quality : String
deriving Repr, DecidableEq

/-- Scale entry of a point configuration (hal.py lines 160-162): either
a dict with optional gain/offset keys or a bare number. -/
inductive ScaleCfg where
  | dictScale : Option ℚ → Option ℚ → ScaleCfg
  | numScale : ℚ → ScaleCfg
deriving Repr, DecidableEq

/-- Point (tag) configuration dict: the keys the HAL core reads
(`device`, `channel`, `scale`, `reg_scale`, `unit`, `kind`). -/
structure PointCfg where
  device : Option String
  channel : Option Int
  scale : Option ScaleCfg
  reg_scale : Option Int
  unit : Option String
  kind : Option String
deriving Repr, DecidableEq

/-- Point configuration with no keys set, i.e. the `{}` default of
`self.tags.get(tag, {})` (hal.py line 189). -/
def emptyPoint : PointCfg :=
  { device := none, channel := none, scale := none, reg_scale := none,
    unit := none, kind := none }

/-- Ordered lookup in an association-list model of a Python dict. -/
def getTag {α : Type} (l : List (String × α)) (k : String) : Option α :=
  match l with
  | [] => none
  | (k', v) :: rest => if k' = k then some v else getTag rest k

/-- Python dict assignment `d[k] = v`: replace in place when the key
exists, append otherwise. -/
def setIn {α : Type} (l : List (String × α)) (k : String) (v : α) :
    List (String × α) :=
  match l with
  | [] => [(k, v)]
  | (k', v') :: rest => if k' = k then (k, v) :: rest else (k', v') :: setIn rest k v

/-- Gain extraction (hal.py line 161): `scale.get("gain", 1.0)` for a
dict, `float(scale or 1.0)` for a bare value (a falsy 0 becomes 1.0),
with `p.get("scale", {})` supplying an empty dict when absent. -/
def gainOf : Option ScaleCfg → ℚ
  | none => 1
  | some (ScaleCfg.dictScale g _) => g.getD 1
  | some (ScaleCfg.numScale s) => if s = 0 then 1 else s

/-- Offset extraction (hal.py line 162): `scale.get("offset", 0.0)` for
a dict, 0.0 for a bare value or an absent scale. -/
def offsetOf : Option ScaleCfg → ℚ
  | none => 0
  | some (ScaleCfg.dictScale _ o) => o.getD 0
  | some (ScaleCfg.numScale _) => 0

/-- Dispatch of one write to its bound device (hal.py lines 196-211,
the body of the try block up to `ok`): AO chooses voltage vs percent
semantics from the point's `unit`/`kind` fields with channel default 1
and reg_scale default 1000; PPS and Pump take a percent write; any
other device type logs a warning and yields `ok = False`. -/
def dispatchDev (dev : Dev) (p : PointCfg) (value : ℚ) : Except Unit Bool :=
  match dev with
  | Dev.ao d =>
      let ch := p.channel.getD 1
      let rs := p.reg_scale.getD 1000
      let unitS := pyUpper (p.unit.getD "")
      if unitS = "V" ∧ pyLower (p.kind.getD "") ≠ "percent" then
        AO.write_voltage_fixed3 d ch value rs
      else
        AO.write_percent_to_0_10v d ch value rs
  | Dev.pps d => PPS.write_percent d value
  | Dev.pump d => Pump.write_percent d value
  | Dev.ai _ => Except.ok false
  | Dev.tda _ => Except.ok false

/-- One iteration of HAL._ctl_loop on a dequeued (tag, value)
(hal.py lines 188-218), acting on the data table at clock reading
`now`: unbound tags (missing or falsy `device`) are logged and skipped
with no table change; a device name missing from `self.devices` raises
(KeyError, outside the try); otherwise the dispatch outcome or a caught
exception is recorded through `_set_tag`. -/
def ctl_step (tags : List (String × PointCfg)) (devices : List (String × Dev))
    (now : ℚ) (data : List (String × TagValue)) (cmd : String × ℚ) :
    Except Unit (List (String × TagValue)) :=
  let tag := cmd.1
  let value := cmd.2
  let p := (getTag tags tag).getD emptyPoint
  let dn := p.device.getD ""
  if dn = "" then Except.ok data
  else
    match getTag devices dn with
    | none => Except.error ()
    | some dev =>
        match dispatchDev dev p value with
        | Except.error _ => Except.ok (setIn data tag ⟨none, now, "Bad"⟩)
        | Except.ok ok =>
            Except.ok (setIn data tag
              (if ok then ⟨some value, now, "Good"⟩ else ⟨none, now, "Bad"⟩))

/-- One iteration of the per-tag body of HAL._daq_loop (hal.py lines
148-171), threading the (data, any_bad) accumulator: unbound tags are
skipped; a dangling device name raises KeyError (outside the try); AI
and TDA devices are read on the configured channel (default 0), a None
or an exception storing Bad/None and setting any_bad, a raw value `r`
storing `r*gain + offset` with quality Good; other device types are
skipped. -/
def daq_tag_step (devices : List (String × Dev)) (now : ℚ)
    (st : List (String × TagValue) × Bool) (entry : String × PointCfg) :
    Except Unit (List (String × TagValue) × Bool) :=
  let data := st.1
  let anyBad := st.2
  let tag := entry.1
  let p := entry.2
  let dn := p.device.getD ""
  if dn = "" then Except.ok (data, anyBad)
  else
    match getTag devices dn with
    | none => Except.error ()
    | some dev =>
        match dev with
        | Dev.ai d =>
            (match AI.read_channel d (p.channel.getD 0) with
             | Except.error _ => Except.ok (setIn data tag ⟨none, now, "Bad"⟩, true)
             | Except.ok none => Except.ok (setIn data tag ⟨none, now, "Bad"⟩, true)
             | Except.ok (some r) =>
                 Except.ok (setIn data tag
                   ⟨some ((r : ℚ) * gainOf p.scale + offsetOf p.scale), now, "Good"⟩,
                   anyBad))
        | Dev.tda d =>
            (match TDA.read_channel d (p.channel.getD 0) with
             | Except.error _ => Except.ok (setIn data tag ⟨none, now, "Bad"⟩, true)
             | Except.ok none => Except.ok (setIn data tag ⟨none, now, "Bad"⟩, true)
             | Except.ok (some r) =>
                 Except.ok (setIn data tag
                   ⟨some ((r : ℚ) * gainOf p.scale + offsetOf p.scale), now, "Good"⟩,
                   anyBad))
        | _ => Except.ok (data, anyBad)

/-- One full sweep of HAL._daq_loop (hal.py lines 146-175): fold the
per-tag step over the tag dict, then, when a "comm_bad" point is
configured, store 1.0/0.0 with quality Good from the any_bad flag. -/
def daq_cycle (tags : List (String × PointCfg)) (devices : List (String × Dev))
    (now : ℚ) (data : List (String × TagValue)) :
    Except Unit (List (String × TagValue)) := do
  let st ← tags.foldlM (daq_tag_step devices now) (data, false)
  if (getTag tags "comm_bad").isSome then
    pure (setIn st.1 "comm_bad" ⟨some (if st.2 then 1 else 0), now, "Good"⟩)
  else
    pure st.1

/-- Mutable state of a HAL instance that the public API touches:
configuration (tags, devices), the live data table, and the pending
writes queue. -/
structure HALState where
  tags : List (String × PointCfg)
  devices : List (String × Dev)
  data : List (String × TagValue)
  write_q : List (String × ℚ)

/-- HAL.snapshot (hal.py lines 108-116): under the data lock, render
every TagValue into a fresh {value, ts, quality} record. Every step
(dict iteration, attribute reads, dict construction) is non-raising, so
the embedding is total with an `Except.ok` result. -/
def HAL.snapshot (s : HALState) :
    Except Unit (List (String × (Option ℚ × ℚ × String))) :=
  Except.ok (s.data.map (fun kv => (kv.1, (kv.2.value, kv.2.ts, kv.2.quality))))

/-- HAL.write (hal.py lines 118-126): `self.write_q.put((tag,
float(value)))` on the unbounded queue; `float` of a float and an
unbounded `put` are non-raising, so the embedding is total. -/
def HAL.write (s : HALState) (tag : String) (value : ℚ) : Except Unit HALState :=
  Except.ok { s with write_q := s.write_q ++ [(tag, value)] }

/-! Helper lemmas about the dict model and rounding. -/

theorem getTag_setIn_self {α : Type} (l : List (String × α)) (k : String) (v : α) :
    getTag (setIn l k v) k = some v := by
  induction l with
  | nil => simp [setIn, getTag]
  | cons hd tl ih =>
      obtain ⟨k', v'⟩ := hd
      by_cases h : k' = k
      · simp [setIn, h, getTag]
      · simp [setIn, h, getTag, ih]

theorem getTag_setIn_ne {α : Type} (l : List (String × α)) (k k' : String) (v : α)
    (h : k ≠ k') : getTag (setIn l k v) k' = getTag l k' := by
  induction l with
  | nil => simp [setIn, getTag, h]
  | cons hd tl ih =>
      obtain ⟨k₀, v₀⟩ := hd
      by_cases h0 : k₀ = k
      · subst h0
        simp [setIn, getTag, h]
      · simp only [setIn, if_neg h0, getTag]
        by_cases h1 : k₀ = k'
        · simp [h1]
        · simp [h1, ih]

theorem getTag_map {α β : Type} (f : α → β) (l : List (String × α)) (k : String) :
    getTag (l.map (fun kv => (kv.1, f kv.2))) k = (getTag l k).map f := by
  induction l with
  | nil => simp [getTag]
  | cons hd tl ih =>
      by_cases h : hd.1 = k <;> simp [getTag, h, ih]

theorem pyRound_intCast (n : ℤ) : pyRound ((n : ℚ)) = n := by
  unfold pyRound
  norm_num

/-! Claim theorems. -/

/-- C3 (counterexample): with a connected bus whose client raises, both
`ModbusBus.read_input` and `ModbusBus.write_holding` propagate the
exception instead of returning "unavailable" resp. `False`, refuting
the claim that the bus operations never raise on a client exception. -/
theorem C3_bus_raises_on_client_exception :
    ModbusBus.read_input
        ⟨true, ⟨fun _ _ _ => ReadResp.exn, fun _ _ _ => WriteResp.exn⟩⟩ 1 0 1
      = Except.error ()
    ∧ ModbusBus.write_holding
        ⟨true, ⟨fun _ _ _ => ReadResp.exn, fun _ _ _ => WriteResp.exn⟩⟩ 1 0 5
      = Except.error () :=
  ⟨rfl, rfl⟩

/-- C3 (amended): `read_input` returns None on a disconnected bus or a
registers-less (error) response and the ordered register list on
success, but a client exception propagates; `write_holding` returns
False on a disconnected bus or an error response, True on success, and
likewise propagates a client exception. -/
theorem C3_bus_contract (b : ModbusBus) (u a c v : Int) (vs : List Int) :
    (b.ok = false → b.read_input u a c = Except.ok none)
    ∧ (b.ok = true → b.client.readInput u a c = ReadResp.noRegs →
        b.read_input u a c = Except.ok none)
    ∧ (b.ok = true → b.client.readInput u a c = ReadResp.regs vs →
        b.read_input u a c = Except.ok (some vs))
    ∧ (b.ok = true → b.client.readInput u a c = ReadResp.exn →
        b.read_input u a c = Except.error ())
    ∧ (b.ok = false → b.write_holding u a v = Except.ok false)
    ∧ (b.ok = true → b.client.writeReg u a v = WriteResp.errResp →
        b.write_holding u a v = Except.ok false)
    ∧ (b.ok = true → b.client.writeReg u a v = WriteResp.okResp →
        b.write_holding u a v = Except.ok true)
    ∧ (b.ok = true → b.client.writeReg u a v = WriteResp.exn →
        b.write_holding u a v = Except.error ()) := by
  refine ⟨fun h => ?_, fun h hc => ?_, fun h hc => ?_, fun h hc => ?_,
    fun h => ?_, fun h hc => ?_, fun h hc => ?_, fun h hc => ?_⟩ <;>
    simp [ModbusBus.read_input, ModbusBus.write_holding, h] <;> rw [hc]

/-- C3 (witness): a connected bus whose client answers registers [5, 6]
yields exactly that ordered list. -/
theorem C3_bus_contract_witness :
    ModbusBus.read_input
        ⟨true, ⟨fun _ _ _ => ReadResp.regs [5, 6], fun _ _ _ => WriteResp.okResp⟩⟩ 2 7 2
      = Except.ok (some [5, 6]) :=
  (C3_bus_contract
    ⟨true, ⟨fun _ _ _ => ReadResp.regs [5, 6], fun _ _ _ => WriteResp.okResp⟩⟩
    2 7 2 0 [5, 6]).2.2.1 rfl rfl

/-- C4 (counterexample): on channel 0 the TDA driver still performs a
register read (the offset clamps to 0) and returns the register value
321, not "unavailable", refuting the claim that channel ≤ 0 yields
unavailable with no register operation. -/
theorem C4_tda_channel_zero_reads :
    TDA.read_channel
        ⟨"tda1", ⟨true, ⟨fun _ _ _ => ReadResp.regs [321], fun _ _ _ => WriteResp.errResp⟩⟩, 3⟩ 0
      = Except.ok (some 321)
    ∧ ¬ (TDA.read_channel
        ⟨"tda1", ⟨true, ⟨fun _ _ _ => ReadResp.regs [321], fun _ _ _ => WriteResp.errResp⟩⟩, 3⟩ 0
      = Except.ok none) :=
  ⟨rfl, fun h => Option.noConfusion (Except.ok.inj h)⟩

/-- C4 (amended): for channel ≥ 1 the TDA read targets zero-based
offset ch − 1 in the read-only register class; for channel ≤ 0 the
offset clamps to 0, so the read behaves exactly like a read of
channel 1 (a register operation is still performed). -/
theorem C4_tda_channel_offsets (d : BaseDev) (ch : Int) :
    (1 ≤ ch → TDA.read_channel d ch = regsFirst (d.bus.read_input d.unit (ch - 1) 1))
    ∧ (ch ≤ 0 → TDA.read_channel d ch = TDA.read_channel d 1) := by
  constructor
  · intro h
    unfold TDA.read_channel
    rw [max_eq_right (by omega : (0 : ℤ) ≤ ch - 1)]
  · intro h
    unfold TDA.read_channel
    rw [max_eq_left (by omega : ch - 1 ≤ (0 : ℤ)), max_eq_left (by omega : (1 : ℤ) - 1 ≤ 0)]

/-- C4 (witness): concrete instances of both conjuncts on a device
whose bus answers [9] everywhere. -/
theorem C4_tda_channel_offsets_witness :
    (TDA.read_channel
        ⟨"t", ⟨true, ⟨fun _ _ _ => ReadResp.regs [9], fun _ _ _ => WriteResp.okResp⟩⟩, 1⟩ 4
      = regsFirst (ModbusBus.read_input
          ⟨true, ⟨fun _ _ _ => ReadResp.regs [9], fun _ _ _ => WriteResp.okResp⟩⟩ 1 (4 - 1) 1))
    ∧ (TDA.read_channel
        ⟨"t", ⟨true, ⟨fun _ _ _ => ReadResp.regs [9], fun _ _ _ => WriteResp.okResp⟩⟩, 1⟩ (-2)
      = TDA.read_channel
        ⟨"t", ⟨true, ⟨fun _ _ _ => ReadResp.regs [9], fun _ _ _ => WriteResp.okResp⟩⟩, 1⟩ 1) :=
  ⟨(C4_tda_channel_offsets
      ⟨"t", ⟨true, ⟨fun _ _ _ => ReadResp.regs [9], fun _ _ _ => WriteResp.okResp⟩⟩, 1⟩ 4).1
      (by norm_num),
   (C4_tda_channel_offsets
      ⟨"t", ⟨true, ⟨fun _ _ _ => ReadResp.regs [9], fun _ _ _ => WriteResp.okResp⟩⟩, 1⟩ (-2)).2
      (by norm_num)⟩

/-- C5 (counterexample): channel −1 lies outside any valid channel
range of the AI device, yet the driver performs the bus read at offset
256 + (−1) and returns the register value 7 rather than "unavailable",
refuting the claimed range rejection. -/
theorem C5_ai_out_of_range_not_rejected :
    AI.read_channel
        ⟨"ai1", ⟨true, ⟨fun _ _ _ => ReadResp.regs [7], fun _ _ _ => WriteResp.errResp⟩⟩, 1⟩ (-1)
      = Except.ok (some 7)
    ∧ ¬ (AI.read_channel
        ⟨"ai1", ⟨true, ⟨fun _ _ _ => ReadResp.regs [7], fun _ _ _ => WriteResp.errResp⟩⟩, 1⟩ (-1)
      = Except.ok none) :=
  ⟨rfl, fun h => Option.noConfusion (Except.ok.inj h)⟩

/-- C5 (amended): the AI driver performs no range validation at all:
every channel index ch is forwarded as a read of one register at
zero-based offset 256 + ch; the result is "unavailable" exactly when
that bus read yields no register list (disconnected bus or error
response), and a client exception propagates. -/
theorem C5_ai_forwards_any_channel (d : BaseDev) (ch : Int) :
    AI.read_channel d ch = regsFirst (d.bus.read_input d.unit (256 + ch) 1)
    ∧ (d.bus.ok = false → AI.read_channel d ch = Except.ok none)
    ∧ (d.bus.ok = true →
        d.bus.client.readInput d.unit (256 + ch) 1 = ReadResp.exn →
        AI.read_channel d ch = Except.error ()) := by
  have hoff : reg3x_to_offset AI.CH0_3X = 256 := rfl
  refine ⟨?_, fun h => ?_, fun h hc => ?_⟩
  · unfold AI.read_channel
    rw [hoff]
  · unfold AI.read_channel
    simp [ModbusBus.read_input, h, regsFirst]
  · unfold AI.read_channel
    rw [hoff]
    simp [ModbusBus.read_input, h, hc, regsFirst]

/-- C1 (counterexample): a write dequeued for tag "x" bound to an AI
device (no writable capability) does update the table: the stored
triple (value 5, ts 1, quality Good) becomes (None, now, Bad),
refuting the claim that the stored value, timestamp and quality are
left unchanged. -/
theorem C1_nonwritable_write_updates_table :
    ctl_step [("x", ⟨some "d1", none, none, none, none, none⟩)]
        [("d1", Dev.ai ⟨"d1",
          ⟨false, ⟨fun _ _ _ => ReadResp.noRegs, fun _ _ _ => WriteResp.errResp⟩⟩, 1⟩)]
        2 [("x", ⟨some 5, 1, "Good"⟩)] ("x", 42)
      = Except.ok [("x", ⟨none, 2, "Bad"⟩)]
    ∧ getTag [("x", (⟨none, 2, "Bad"⟩ : TagValue))] "x"
      ≠ getTag [("x", (⟨some 5, 1, "Good"⟩ : TagValue))] "x" :=
  ⟨rfl, by decide⟩

/-- C1 (amended): a write to an unbound tag (missing or empty device
name) is dropped with no table change and no exception; a write to a
tag bound to a device without a writable capability (AI or TDA) is
dropped with no bus operation and no retry — the result is the same
for every bus state — but the tag is updated to value None, quality
Bad at the dispatch clock reading. -/
theorem C1_write_drop_semantics (tags : List (String × PointCfg))
    (devices : List (String × Dev)) (now : ℚ) (data : List (String × TagValue))
    (tag : String) (v : ℚ) :
    (((getTag tags tag).getD emptyPoint).device.getD "" = "" →
        ctl_step tags devices now data (tag, v) = Except.ok data)
    ∧ (∀ p dn d, getTag tags tag = some p → p.device = some dn → dn ≠ "" →
        (getTag devices dn = some (Dev.ai d) ∨ getTag devices dn = some (Dev.tda d)) →
        ctl_step tags devices now data (tag, v)
          = Except.ok (setIn data tag ⟨none, now, "Bad"⟩)) := by
  constructor
  · intro h
    simp [ctl_step, h]
  · rintro p dn d hp hdn hne (hdev | hdev) <;>
      simp [ctl_step, hp, hdn, hne, hdev, dispatchDev]

/-- C1 (witness): a write to a tag with no device binding leaves the
table untouched; a write to a TDA-bound tag records None/Bad. -/
theorem C1_write_drop_semantics_witness :
    ctl_step [("lonely", emptyPoint)] [] 3
        [("lonely", ⟨some 1, 0, "Good"⟩)] ("lonely", 9)
      = Except.ok [("lonely", ⟨some 1, 0, "Good"⟩)]
    ∧ ctl_step [("x", ⟨some "t9", none, none, none, none, none⟩)]
        [("t9", Dev.tda ⟨"t9",
          ⟨true, ⟨fun _ _ _ => ReadResp.regs [4], fun _ _ _ => WriteResp.okResp⟩⟩, 2⟩)]
        2 [] ("x", 4)
      = Except.ok [("x", ⟨none, 2, "Bad"⟩)] :=
  ⟨(C1_write_drop_semantics [("lonely", emptyPoint)] [] 3
      [("lonely", ⟨some 1, 0, "Good"⟩)] "lonely" 9).1 rfl,
   (C1_write_drop_semantics [("x", ⟨some "t9", none, none, none, none, none⟩)]
      [("t9", Dev.tda ⟨"t9",
        ⟨true, ⟨fun _ _ _ => ReadResp.regs [4], fun _ _ _ => WriteResp.okResp⟩⟩, 2⟩)]
      2 [] "x" 4).2
      ⟨some "t9", none, none, none, none, none⟩ "t9"
      ⟨"t9", ⟨true, ⟨fun _ _ _ => ReadResp.regs [4], fun _ _ _ => WriteResp.okResp⟩⟩, 2⟩
      rfl rfl (by decide) (Or.inr rfl)⟩

/-- C2: when a tag is bound to a readable device (AI or TDA) and the
channel read succeeds with raw value r, one poll step stores
r·gain + offset with quality Good, where an absent scale contributes
gain 1 and offset 0. -/
theorem C2_poll_scale_good (devices : List (String × Dev)) (now : ℚ)
    (data : List (String × TagValue)) (anyBad : Bool) (tag : String)
    (p : PointCfg) (d : BaseDev) (r : Int) (dn : String)
    (hdn : p.device = some dn) (hne : dn ≠ "") :
    (getTag devices dn = some (Dev.ai d) →
      AI.read_channel d (p.channel.getD 0) = Except.ok (some r) →
      daq_tag_step devices now (data, anyBad) (tag, p)
        = Except.ok (setIn data tag
            ⟨some ((r : ℚ) * gainOf p.scale + offsetOf p.scale), now, "Good"⟩, anyBad))
    ∧ (getTag devices dn = some (Dev.tda d) →
      TDA.read_channel d (p.channel.getD 0) = Except.ok (some r) →
      daq_tag_step devices now (data, anyBad) (tag, p)
        = Except.ok (setIn data tag
            ⟨some ((r : ℚ) * gainOf p.scale + offsetOf p.scale), now, "Good"⟩, anyBad))
    ∧ gainOf none = 1 ∧ offsetOf none = 0 := by
  refine ⟨fun hdev hread => ?_, fun hdev hread => ?_, rfl, rfl⟩ <;>
    simp [daq_tag_step, hdn, hne, hdev, hread]

/-- C2 (witness): scenario tag "T1" on AI channel 3 with gain 0.1 and
offset −50: raw register 1000 stores value 50 with quality Good. -/
theorem C2_poll_scale_good_witness :
    daq_tag_step
        [("ai1", Dev.ai ⟨"ai1",
          ⟨true, ⟨fun _ a _ => if a = 259 then ReadResp.regs [1000] else ReadResp.noRegs,
            fun _ _ _ => WriteResp.errResp⟩⟩, 7⟩)]
        5 ([], false)
        ("T1", ⟨some "ai1", some 3,
          some (ScaleCfg.dictScale (some (1 / 10)) (some (-50))), none, none, none⟩)
      = Except.ok ([("T1", ⟨some 50, 5, "Good"⟩)], false) := by
  have h := (C2_poll_scale_good
      [("ai1", Dev.ai ⟨"ai1",
        ⟨true, ⟨fun _ a _ => if a = 259 then ReadResp.regs [1000] else ReadResp.noRegs,
          fun _ _ _ => WriteResp.errResp⟩⟩, 7⟩)]
      5 [] false "T1"
      ⟨some "ai1", some 3,
        some (ScaleCfg.dictScale (some (1 / 10)) (some (-50))), none, none, none⟩
      ⟨"ai1", ⟨true, ⟨fun _ a _ => if a = 259 then ReadResp.regs [1000] else ReadResp.noRegs,
        fun _ _ _ => WriteResp.errResp⟩⟩, 7⟩
      1000 "ai1" rfl (by decide)).1 rfl rfl
  rw [h]
  norm_num [setIn, gainOf, offsetOf]

/-- C6: whenever a poll sweep completes with accumulator (table, flag)
and a "comm_bad" point is configured, the cycle ends by storing
1.0 when the flag is set and 0.0 otherwise into "comm_bad", always
with quality Good. -/
theorem C6_comm_bad_aggregate (tags : List (String × PointCfg))
    (devices : List (String × Dev)) (now : ℚ) (data : List (String × TagValue))
    (st : List (String × TagValue) × Bool)
    (hfold : tags.foldlM (daq_tag_step devices now) (data, false) = Except.ok st)
    (hcfg : (getTag tags "comm_bad").isSome = true) :
    daq_cycle tags devices now data
      = Except.ok (setIn st.1 "comm_bad"
          ⟨some (if st.2 then 1 else 0), now, "Good"⟩)
    ∧ getTag (setIn st.1 "comm_bad" ⟨some (if st.2 then 1 else 0), now, "Good"⟩)
        "comm_bad"
      = some ⟨some (if st.2 then 1 else 0), now, "Good"⟩ := by
  constructor
  · unfold daq_cycle
    rw [hfold]
    simp [hcfg, Bind.bind, Except.bind, Pure.pure, Except.pure]
  · exact getTag_setIn_self _ _ _

/-- C6 (witness): one failed TDA read (disconnected bus) sets the
any-bad flag, and the configured "comm_bad" tag ends the cycle at
value 1 with quality Good. -/
theorem C6_comm_bad_aggregate_witness :
    daq_cycle
        [("s1", ⟨some "t1", some 1, none, none, none, none⟩), ("comm_bad", emptyPoint)]
        [("t1", Dev.tda ⟨"t1",
          ⟨false, ⟨fun _ _ _ => ReadResp.regs [4], fun _ _ _ => WriteResp.okResp⟩⟩, 2⟩)]
        4 []
      = Except.ok [("s1", ⟨none, 4, "Bad"⟩), ("comm_bad", ⟨some 1, 4, "Good"⟩)] :=
  (C6_comm_bad_aggregate
    [("s1", ⟨some "t1", some 1, none, none, none, none⟩), ("comm_bad", emptyPoint)]
    [("t1", Dev.tda ⟨"t1",
      ⟨false, ⟨fun _ _ _ => ReadResp.regs [4], fun _ _ _ => WriteResp.okResp⟩⟩, 2⟩)]
    4 [] ([("s1", ⟨none, 4, "Bad"⟩)], true) rfl rfl).1

/-- C5 (witness): a disconnected bus makes every AI channel read return
None without any client interaction. -/
theorem C5_ai_forwards_any_channel_witness :
    AI.read_channel
        ⟨"ai2", ⟨false, ⟨fun _ _ _ => ReadResp.regs [7], fun _ _ _ => WriteResp.okResp⟩⟩, 1⟩ 250
      = Except.ok none :=
  (C5_ai_forwards_any_channel
    ⟨"ai2", ⟨false, ⟨fun _ _ _ => ReadResp.regs [7], fun _ _ _ => WriteResp.okResp⟩⟩, 1⟩ 250).2.1
    rfl

/-- C7: the AO voltage write clamps to [0,10] V and writes
round(clamped·scale) into the read/write register at CH1_4X + (ch−1);
the percent write clamps to [0,100] and scales by 0.10 into the
voltage write; the 75-percent scenario encodes register value 7500 at
the channel-1 base address 10, and a connected client accepting
exactly (address 10, value 7500) acknowledges the write. -/
theorem C7_ao_write_encoding (d : BaseDev) (ch : Int) (volts percent : ℚ) (s : Int)
    (h : 1 ≤ ch) :
    AO.write_voltage_fixed3 d ch volts s
      = d.bus.write_holding d.unit (AO.CH1_4X + (ch - 1))
          (pyRound ((max 0 (min 10 volts)) * (s : ℚ)))
    ∧ AO.write_percent_to_0_10v d ch percent s
      = AO.write_voltage_fixed3 d ch ((max 0 (min 100 percent)) * (10 / 100)) s
    ∧ pyRound ((max 0 (min 10 ((max 0 (min 100 (75 : ℚ))) * (10 / 100)))) * ((1000 : ℤ) : ℚ))
      = 7500
    ∧ AO.CH1_4X + ((1 : ℤ) - 1) = 10
    ∧ AO.write_percent_to_0_10v
        ⟨"ao1", ⟨true, ⟨fun _ _ _ => ReadResp.noRegs,
          fun _ a v => if a = 10 ∧ v = 7500 then WriteResp.okResp else WriteResp.errResp⟩⟩, 2⟩
        1 75 1000
      = Except.ok true := by
  have harg : (max 0 (min 10 ((max 0 (min 100 (75 : ℚ))) * (10 / 100)))) * ((1000 : ℤ) : ℚ)
      = ((7500 : ℤ) : ℚ) := by
    norm_num [min_def, max_def]
  have hraw : pyRound ((max 0 (min 10 ((max 0 (min 100 (75 : ℚ))) * (10 / 100)))) * ((1000 : ℤ) : ℚ))
      = 7500 := by
    rw [harg, pyRound_intCast]
  refine ⟨rfl, rfl, hraw, by norm_num [AO.CH1_4X], ?_⟩
  simp only [AO.write_percent_to_0_10v, AO.write_voltage_fixed3, AO.CH1_4X]
  rw [hraw]
  norm_num [ModbusBus.write_holding]

/-- C7 (witness): the 75-percent scenario write succeeds against the
client that accepts only register 10 with value 7500. -/
theorem C7_ao_write_encoding_witness :
    AO.write_percent_to_0_10v
        ⟨"ao1", ⟨true, ⟨fun _ _ _ => ReadResp.noRegs,
          fun _ a v => if a = 10 ∧ v = 7500 then WriteResp.okResp else WriteResp.errResp⟩⟩, 2⟩
        1 75 1000
      = Except.ok true :=
  (C7_ao_write_encoding
    ⟨"ao1", ⟨true, ⟨fun _ _ _ => ReadResp.noRegs,
      fun _ a v => if a = 10 ∧ v = 7500 then WriteResp.okResp else WriteResp.errResp⟩⟩, 2⟩
    1 0 75 1000 le_rfl).2.2.2.2

/-- C9: snapshot always returns (never raises) the rendered copy of
the full table — lookups in the copy agree pointwise with the live
table — and write always returns after appending (tag, value) to the
pending queue, leaving table and configuration untouched. -/
theorem C9_public_api_never_raises (s : HALState) (tag k : String) (value : ℚ) :
    HAL.snapshot s
      = Except.ok (s.data.map (fun kv => (kv.1, (kv.2.value, kv.2.ts, kv.2.quality))))
    ∧ getTag ((HAL.snapshot s).toOption.getD []) k
      = (getTag s.data k).map (fun tv => (tv.value, tv.ts, tv.quality))
    ∧ (∃ s', HAL.write s tag value = Except.ok s'
        ∧ s'.data = s.data ∧ s'.tags = s.tags ∧ s'.devices = s.devices
        ∧ s'.write_q = s.write_q ++ [(tag, value)]) := by
  refine ⟨rfl, ?_, ⟨_, rfl, rfl, rfl, rfl, rfl⟩⟩
  exact getTag_map (fun tv => (tv.value, tv.ts, tv.quality)) s.data k

/-- C10: a write dispatched to an AO-bound tag uses the percent
convenience with channel default 1 and register scale default 1000,
unless the point's unit field uppercases to "V" while its kind field
does not lowercase to "percent", in which case the fixed-voltage write
is used; the recorded outcome in the control loop follows the chosen
write's result. -/
theorem C10_ao_percent_vs_voltage (p : PointCfg) (d : BaseDev) (value : ℚ) :
    (pyUpper (p.unit.getD "") = "V" → pyLower (p.kind.getD "") ≠ "percent" →
      dispatchDev (Dev.ao d) p value
        = AO.write_voltage_fixed3 d (p.channel.getD 1) value (p.reg_scale.getD 1000))
    ∧ (pyUpper (p.unit.getD "") ≠ "V" →
      dispatchDev (Dev.ao d) p value
        = AO.write_percent_to_0_10v d (p.channel.getD 1) value (p.reg_scale.getD 1000))
    ∧ (pyLower (p.kind.getD "") = "percent" →
      dispatchDev (Dev.ao d) p value
        = AO.write_percent_to_0_10v d (p.channel.getD 1) value (p.reg_scale.getD 1000))
    ∧ (∀ tags devices now data tag dn,
        getTag tags tag = some p → p.device = some dn → dn ≠ "" →
        getTag devices dn = some (Dev.ao d) →
        ctl_step tags devices now data (tag, value)
          = (match dispatchDev (Dev.ao d) p value with
             | Except.error _ => Except.ok (setIn data tag ⟨none, now, "Bad"⟩)
             | Except.ok ok => Except.ok (setIn data tag
                 (if ok then ⟨some value, now, "Good"⟩ else ⟨none, now, "Bad"⟩)))) := by
  refine ⟨fun h1 h2 => ?_, fun h1 => ?_, fun h2 => ?_,
    fun tags devices now data tag dn hp hdn hne hdev => ?_⟩
  · simp [dispatchDev, h1, h2]
  · simp [dispatchDev, h1]
  · simp [dispatchDev, h2]
  · simp only [ctl_step, hp, Option.getD_some, hdn, hne, hdev]
    simp

/-- C10 (witness): unit "v" with no kind selects the voltage write at
the default channel and scale; kind "Percent" forces the percent write
even when the unit is "V". -/
theorem C10_ao_percent_vs_voltage_witness :
    dispatchDev
        (Dev.ao ⟨"ao2", ⟨false, ⟨fun _ _ _ => ReadResp.noRegs, fun _ _ _ => WriteResp.errResp⟩⟩, 1⟩)
        ⟨some "a", none, none, none, some "v", none⟩ 3
      = AO.write_voltage_fixed3
        ⟨"ao2", ⟨false, ⟨fun _ _ _ => ReadResp.noRegs, fun _ _ _ => WriteResp.errResp⟩⟩, 1⟩ 1 3 1000
    ∧ dispatchDev
        (Dev.ao ⟨"ao2", ⟨false, ⟨fun _ _ _ => ReadResp.noRegs, fun _ _ _ => WriteResp.errResp⟩⟩, 1⟩)
        ⟨some "a", none, none, none, some "V", some "Percent"⟩ 3
      = AO.write_percent_to_0_10v
        ⟨"ao2", ⟨false, ⟨fun _ _ _ => ReadResp.noRegs, fun _ _ _ => WriteResp.errResp⟩⟩, 1⟩ 1 3 1000 :=
  ⟨(C10_ao_percent_vs_voltage ⟨some "a", none, none, none, some "v", none⟩
      ⟨"ao2", ⟨false, ⟨fun _ _ _ => ReadResp.noRegs, fun _ _ _ => WriteResp.errResp⟩⟩, 1⟩ 3).1
      rfl (by decide),
   (C10_ao_percent_vs_voltage ⟨some "a", none, none, none, some "V", some "Percent"⟩
      ⟨"ao2", ⟨false, ⟨fun _ _ _ => ReadResp.noRegs, fun _ _ _ => WriteResp.errResp⟩⟩, 1⟩ 3).2.2.1
      rfl⟩

end IceLens
